import Mathlib

/-!
Verification of the `code-refactoring-infra` CDK stack (`stack/app_stack.go`).

The Go code is a one-shot, single-threaded sequence of resource-declaration
calls (`NewAppStack` and its `create*` helpers).  We shallowly embed the
parts of that construction that the specification talks about:

* the string-templating that computes resource names (`createStorageResources`,
  `createFrontendResources`, `createCognitoResources`, `NewAppStack`),
* the API-gateway routing table declared by `createAPIGatewayResources`,
* the configuration records written by `createNonSecretParameters` and
  `createSecretParameters`,
* the IAM grants attached by `setupMigrationLambdaPermissions` and by
  `createGitHubActionsRole` / `createFrontendResources`,
* the container environment map of `createComputeResources`,
* the Cognito user-pool / client options of `createCognitoResources`,
* the declaration order and the cross-references between declarations.

Handles returned by the provider SDK are modelled symbolically (inductive
tags); values that are genuine string computations in the Go code are
modelled as Lean `String` computations.  Definitions come first, the
claim theorems follow at the end of the file.
-/

namespace CodeRefactorInfra

/-! ## Resource-name templating

The function `createStorageResources` computes the bucket name with
`fmt.Sprintf("code-refactor-bucket-%s-%s", resources.Account, resources.Region)`;
`createFrontendResources` uses `"code-refactor-frontend-%s-%s"`;
`createCognitoResources` computes the hosted-domain part with
`fmt.Sprintf("code-refactor-%s", resources.Account)`. -/

def bucketNameOf (account region : String) : String :=
  "code-refactor-bucket-" ++ account ++ "-" ++ region

def frontendBucketNameOf (account region : String) : String :=
  "code-refactor-frontend-" ++ account ++ "-" ++ region

def hostedDomainPartOf (account : String) : String :=
  "code-refactor-" ++ account

/-- Line 263 of `NewAppStack`: the stack field `CognitoHostedUIURL` is
`fmt.Sprintf("https://%s.auth.%s.amazoncognito.com", cognito.DomainURL, resources.Region)`. -/
def appStackHostedUIURL (domainURL region : String) : String :=
  "https://" ++ domainURL ++ ".auth." ++ region ++ ".amazoncognito.com"

/-- In `createNonSecretParameters` the parameter at
`/code-refactor/frontend/cognito-hosted-ui-url` is written with string value
`cognito.DomainURL` (the bare domain), not the full URL. -/
def frontendHostedUIParamValue (domainURL : String) : String :=
  domainURL

/-! ## API gateway routing table

The function `createAPIGatewayResources` declares a Cognito user-pools
authorizer and four routes: the `AddProxy` call installs an ANY method on
`/\x7bproxy+\x7d` whose default method options carry the Cognito
authorizer, and three `AddResource`/`AddMethod` calls install GET methods
on `/health`, `/swagger` and `/auth` with `AuthorizationType_NONE`. -/

inductive RouteAuth where
  | open_
  | cognito
deriving DecidableEq, Repr

structure Route where
  verb : String
  path : String
  auth : RouteAuth
deriving DecidableEq, Repr

def apiRoutes : List Route :=
  [ { verb := "ANY", path := "/\x7bproxy+\x7d", auth := RouteAuth.cognito },
    { verb := "GET", path := "/health", auth := RouteAuth.open_ },
    { verb := "GET", path := "/swagger", auth := RouteAuth.open_ },
    { verb := "GET", path := "/auth", auth := RouteAuth.open_ } ]

/-! ## Cognito user pool and client configuration

Translated from `createCognitoResources`: the user-pool options
(`SelfSignUpEnabled`, `AutoVerify.Email`, password policy) and the
user-pool-client options (token validities given via `Duration_Hours` /
`Duration_Days`, modelled in minutes). -/

def durationHoursMin (n : Nat) : Nat := n * 60

def durationDaysMin (n : Nat) : Nat := n * 24 * 60

structure UserPoolCfg where
  selfSignUpEnabled : Bool
  signInAliasEmail : Bool
  signInAliasUsername : Bool
  autoVerifyEmail : Bool
  pwMinLength : Nat
  pwRequireLowercase : Bool
  pwRequireUppercase : Bool
  pwRequireDigits : Bool
  pwRequireSymbols : Bool
deriving DecidableEq, Repr

structure UserPoolClientCfg where
  generateSecret : Bool
  authFlowUserPassword : Bool
  authFlowUserSrp : Bool
  idTokenValidityMin : Nat
  accessTokenValidityMin : Nat
  refreshTokenValidityMin : Nat
deriving DecidableEq, Repr

def userPoolCfg : UserPoolCfg :=
  { selfSignUpEnabled := true
    signInAliasEmail := true
    signInAliasUsername := true
    autoVerifyEmail := true
    pwMinLength := 8
    pwRequireLowercase := true
    pwRequireUppercase := true
    pwRequireDigits := true
    pwRequireSymbols := true }

def userPoolClientCfg : UserPoolClientCfg :=
  { generateSecret := false
    authFlowUserPassword := true
    authFlowUserSrp := true
    idTokenValidityMin := durationHoursMin 24
    accessTokenValidityMin := durationHoursMin 24
    refreshTokenValidityMin := durationDaysMin 30 }

/-! ## Configuration stores

The function `createNonSecretParameters` writes 19 string parameters
(backend, frontend and deployment maps merged) to the SSM parameter store
under `/code-refactor/...`; `createSecretParameters` writes two JSON
secrets to Secrets Manager under `/code-refactor/backend/secrets` and
`/code-refactor/frontend/secrets`.  The written values are outputs of
earlier handles; we model each value by a symbolic tag naming which handle
output it is. -/

inductive CfgVal where
  | apiGatewayURL
  | userPoolID
  | regionStr
  | accountID
  | bucketName
  | clusterArn
  | ecrRepoUri
  | ecsClusterName
  | migrationLambdaArn
  | domainURL
  | cloudfrontDomainURL
  | frontendBucketName
  | distributionID
  | credentialsSecretArn
  | knowledgeBaseRoleArn
  | agentRoleArn
  | clientID
deriving DecidableEq, Repr

/-- The merged `allParams` map of `createNonSecretParameters`, key by key,
with each value replaced by the tag of the handle output it is built from. -/
def paramStoreEntries : List (String × CfgVal) :=
  [ ("/code-refactor/backend/api-gateway-url", CfgVal.apiGatewayURL),
    ("/code-refactor/backend/cognito-user-pool-id", CfgVal.userPoolID),
    ("/code-refactor/backend/cognito-region", CfgVal.regionStr),
    ("/code-refactor/backend/s3-bucket-name", CfgVal.bucketName),
    ("/code-refactor/backend/rds-cluster-arn", CfgVal.clusterArn),
    ("/code-refactor/backend/aws-region", CfgVal.regionStr),
    ("/code-refactor/backend/aws-account-id", CfgVal.accountID),
    ("/code-refactor/backend/ecr-repository-uri", CfgVal.ecrRepoUri),
    ("/code-refactor/backend/ecs-cluster-name", CfgVal.ecsClusterName),
    ("/code-refactor/backend/rds-postgres-schema-ensure-lambda-arn", CfgVal.migrationLambdaArn),
    ("/code-refactor/frontend/api-base-url", CfgVal.apiGatewayURL),
    ("/code-refactor/frontend/cognito-user-pool-id", CfgVal.userPoolID),
    ("/code-refactor/frontend/cognito-hosted-ui-url", CfgVal.domainURL),
    ("/code-refactor/frontend/aws-region", CfgVal.regionStr),
    ("/code-refactor/frontend/cloudfront-domain", CfgVal.cloudfrontDomainURL),
    ("/code-refactor/deployment/frontend-bucket", CfgVal.frontendBucketName),
    ("/code-refactor/deployment/cloudfront-distribution-id", CfgVal.distributionID),
    ("/code-refactor/deployment/ecr-repository-uri", CfgVal.ecrRepoUri),
    ("/code-refactor/deployment/aws-region", CfgVal.regionStr) ]

/-- The JSON fields of the `/code-refactor/backend/secrets` and
`/code-refactor/frontend/secrets` secrets written by
`createSecretParameters`. -/
def secretStoreEntries : List (String × CfgVal) :=
  [ ("rds_credentials_secret_arn", CfgVal.credentialsSecretArn),
    ("bedrock_knowledge_base_role_arn", CfgVal.knowledgeBaseRoleArn),
    ("bedrock_agent_role_arn", CfgVal.agentRoleArn),
    ("cognito_client_id", CfgVal.clientID),
    ("cognito_client_id", CfgVal.clientID) ]

/-- Modelled from the spec: the spec classifies as secret-valued exactly the
cross-service trust role ARNs and the database-credential ARN; URLs, IDs and
region strings are non-secret. -/
def secretClassifiedPerSpec (v : CfgVal) : Bool :=
  v == CfgVal.credentialsSecretArn ||
  v == CfgVal.knowledgeBaseRoleArn ||
  v == CfgVal.agentRoleArn

/-! ## Migration lambda IAM grants

Translated from `setupMigrationLambdaPermissions` plus the `GrantRead`
expansion: the role receives two AWS-managed policies, the secret-read
actions scoped to the credentials-secret ARN, and the `rds-data` actions
scoped to the cluster ARN. -/

inductive IamRes where
  | credentialsSecret
  | cluster
  | star
deriving DecidableEq, Repr

inductive RoleGrant where
  | managedPolicy (policyName : String)
  | inlineGrant (actions : List String) (res : IamRes)
deriving DecidableEq, Repr

def rdsDataActions : List String :=
  [ "rds-data:ExecuteStatement",
    "rds-data:BatchExecuteStatement",
    "rds-data:BeginTransaction",
    "rds-data:CommitTransaction",
    "rds-data:RollbackTransaction",
    "rds-data:ExecuteSql",
    "rds-data:DescribeTable" ]

def secretReadActions : List String :=
  [ "secretsmanager:GetSecretValue", "secretsmanager:DescribeSecret" ]

def migrationRoleGrants : List RoleGrant :=
  [ RoleGrant.managedPolicy "service-role/AWSLambdaBasicExecutionRole",
    RoleGrant.managedPolicy "service-role/AWSLambdaVPCAccessExecutionRole",
    RoleGrant.inlineGrant secretReadActions IamRes.credentialsSecret,
    RoleGrant.inlineGrant rdsDataActions IamRes.cluster ]

/-- The actions a grant list allows on a given resource, collected over the
inline grants scoped to that resource. -/
def actionsGrantedOn (grants : List RoleGrant) (r : IamRes) : List String :=
  grants.foldr
    (fun g acc =>
      match g with
      | RoleGrant.managedPolicy _ => acc
      | RoleGrant.inlineGrant as res => if res == r then as ++ acc else acc)
    []

/-- The AWS-managed policies attached by a grant list. -/
def managedPoliciesOf (grants : List RoleGrant) : List String :=
  grants.foldr
    (fun g acc =>
      match g with
      | RoleGrant.managedPolicy n => n :: acc
      | RoleGrant.inlineGrant _ _ => acc)
    []

/-! ## Container environment variables

The `Environment` map of the `AddContainer` call in
`createComputeResources`, keys in source order. -/

def containerEnvNames : List String :=
  [ "GIT_TOKEN",
    "GIT_AUTHOR",
    "GIT_EMAIL",
    "AI_DEFAULT_PROVIDER",
    "AI_LOCAL_ENABLED",
    "AI_BEDROCK_RDS_POSTGRES_CREDENTIALS_SECRET_ARN",
    "AI_BEDROCK_RDS_POSTGRES_INSTANCE_ARN",
    "AI_BEDROCK_RDS_POSTGRES_DATABASE_NAME",
    "AI_BEDROCK_RDS_POSTGRES_SCHEMA_ENSURE_LAMBDA_ARN",
    "AI_BEDROCK_REGION",
    "AI_BEDROCK_KNOWLEDGE_BASE_SERVICE_ROLE_ARN",
    "AI_BEDROCK_AGENT_SERVICE_ROLE_ARN",
    "AI_BEDROCK_S3_BUCKET_NAME",
    "COGNITO_USER_POOL_ID",
    "COGNITO_CLIENT_ID",
    "COGNITO_REGION",
    "METRICS_NAMESPACE",
    "METRICS_REGION",
    "METRICS_SERVICE_NAME",
    "METRICS_ENABLED",
    "TIMEOUT_SECONDS",
    "LOG_LEVEL" ]

/-- Modelled from the spec: the fixed set of environment-variable names the
spec lists for the compute container (credentials-secret ARN, cluster ARN,
database name, migration-function ARN, region, the two role ARNs, bucket
name, user-directory ID / client ID / region, metrics
namespace / region / service-name, timeout, log level). -/
def specifiedEnvNames : List String :=
  [ "AI_BEDROCK_RDS_POSTGRES_CREDENTIALS_SECRET_ARN",
    "AI_BEDROCK_RDS_POSTGRES_INSTANCE_ARN",
    "AI_BEDROCK_RDS_POSTGRES_DATABASE_NAME",
    "AI_BEDROCK_RDS_POSTGRES_SCHEMA_ENSURE_LAMBDA_ARN",
    "AI_BEDROCK_REGION",
    "AI_BEDROCK_KNOWLEDGE_BASE_SERVICE_ROLE_ARN",
    "AI_BEDROCK_AGENT_SERVICE_ROLE_ARN",
    "AI_BEDROCK_S3_BUCKET_NAME",
    "COGNITO_USER_POOL_ID",
    "COGNITO_CLIENT_ID",
    "COGNITO_REGION",
    "METRICS_NAMESPACE",
    "METRICS_REGION",
    "METRICS_SERVICE_NAME",
    "TIMEOUT_SECONDS",
    "LOG_LEVEL" ]

/-- The names the container receives beyond the spec's list: git
configuration, AI provider selection flags, and the metrics on/off flag. -/
def extraEnvNames : List String :=
  [ "GIT_TOKEN",
    "GIT_AUTHOR",
    "GIT_EMAIL",
    "AI_DEFAULT_PROVIDER",
    "AI_LOCAL_ENABLED",
    "METRICS_ENABLED" ]

/-! ## Storage buckets and S3 grants

Both `createStorageResources` and `createFrontendResources` declare their
bucket with `BlockPublicAccess: awss3.BlockPublicAccess_BLOCK_ALL()`.
Object-read access is granted in three places: the Bedrock knowledge-base
role's inline policy (storage bucket), the `GrantRead` call for the
CloudFront origin-access identity (frontend bucket, which expands to the
s3 read action set), and the GitHub Actions role's
`S3FrontendDeployPolicy` (frontend bucket). -/

inductive PublicAccessCfg where
  | blockAll
  | unspecified
deriving DecidableEq, Repr

structure BucketCfg where
  physicalName : String → String → String
  versioned : Bool
  publicAccess : PublicAccessCfg

def codeRefactorBucketCfg : BucketCfg :=
  { physicalName := bucketNameOf
    versioned := true
    publicAccess := PublicAccessCfg.blockAll }

def frontendBucketCfg : BucketCfg :=
  { physicalName := frontendBucketNameOf
    versioned := false
    publicAccess := PublicAccessCfg.blockAll }

inductive BucketId where
  | storage
  | frontend
deriving DecidableEq, Repr

inductive S3Principal where
  | bedrockKnowledgeBaseRole
  | frontendOAI
  | gitHubActionsRole
deriving DecidableEq, Repr

structure S3Grant where
  grantee : S3Principal
  actions : List String
  bucket : BucketId
deriving DecidableEq, Repr

def s3Grants : List S3Grant :=
  [ { grantee := S3Principal.bedrockKnowledgeBaseRole
      actions := ["s3:GetObject", "s3:ListBucket"]
      bucket := BucketId.storage },
    { grantee := S3Principal.frontendOAI
      actions := ["s3:GetObject*", "s3:GetBucket*", "s3:List*"]
      bucket := BucketId.frontend },
    { grantee := S3Principal.gitHubActionsRole
      actions := [ "s3:GetObject", "s3:PutObject", "s3:DeleteObject",
                   "s3:ListBucket", "s3:GetBucketLocation" ]
      bucket := BucketId.frontend } ]

def isObjectReadAction (a : String) : Bool :=
  a == "s3:GetObject" || a == "s3:GetObject*"

/-- Principals granted object-read access on a bucket, in grant order. -/
def readGrantees (b : BucketId) : List S3Principal :=
  (s3Grants.filter (fun g => g.bucket == b && g.actions.any isObjectReadAction)).map
    (fun g => g.grantee)

/-! ## Declaration order and cross-references

The function `NewAppStack` runs the builders in a fixed order (networking,
storage, database, cognito, bedrock, compute, api-gateway, frontend,
github role, configuration stores).  `declTable` lists every resource
declaration in source order together with the handles its input fields
reference (CloudFormation outputs are stack outputs, not resources, and
are not listed; the SSM parameters are listed in the order of the merged
map literal — the write loop iterates a Go map, which only permutes this
block, see `stackDeclNames` below). -/

inductive RId where
  | vpc
  | storageBucket
  | dbSecret
  | rdsCluster
  | migrationSG
  | migrationRole
  | migrationLambda
  | userPool
  | userPoolClient
  | userPoolDomain
  | knowledgeBaseRole
  | agentRole
  | ecsCluster
  | logGroup
  | taskRole
  | taskDef
  | ecrRepo
  | containerDef
  | alb
  | targetGroup
  | ecsServiceSG
  | ecsService
  | albListener
  | restApi
  | cognitoAuthorizer
  | proxyRoute
  | healthRoute
  | swaggerRoute
  | authRoute
  | frontendBucket
  | frontendOAI
  | frontendDistribution
  | gitHubRole
  | ssmParam (key : String)
  | backendSecretsRes
  | frontendSecretsRes
deriving DecidableEq, Repr

def declTable : List (RId × List RId) :=
  [ (RId.vpc, []),
    (RId.storageBucket, []),
    (RId.dbSecret, []),
    (RId.rdsCluster, [RId.vpc, RId.dbSecret]),
    (RId.migrationSG, [RId.vpc]),
    (RId.migrationRole, []),
    (RId.migrationLambda,
      [RId.vpc, RId.migrationSG, RId.migrationRole, RId.dbSecret, RId.rdsCluster]),
    (RId.userPool, []),
    (RId.userPoolClient, [RId.userPool]),
    (RId.userPoolDomain, [RId.userPool]),
    (RId.knowledgeBaseRole, [RId.storageBucket, RId.dbSecret, RId.rdsCluster]),
    (RId.agentRole, []),
    (RId.ecsCluster, [RId.vpc]),
    (RId.logGroup, []),
    (RId.taskRole, [RId.dbSecret]),
    (RId.taskDef, [RId.taskRole]),
    (RId.ecrRepo, []),
    (RId.containerDef,
      [RId.taskDef, RId.ecrRepo, RId.logGroup, RId.dbSecret, RId.rdsCluster,
       RId.migrationLambda, RId.knowledgeBaseRole, RId.agentRole,
       RId.storageBucket, RId.userPool, RId.userPoolClient]),
    (RId.alb, [RId.vpc]),
    (RId.targetGroup, [RId.vpc]),
    (RId.ecsServiceSG, [RId.vpc]),
    (RId.ecsService, [RId.ecsCluster, RId.taskDef, RId.ecsServiceSG]),
    (RId.albListener, [RId.alb, RId.targetGroup]),
    (RId.restApi, []),
    (RId.cognitoAuthorizer, [RId.userPool]),
    (RId.proxyRoute, [RId.restApi, RId.cognitoAuthorizer, RId.alb]),
    (RId.healthRoute, [RId.restApi, RId.alb]),
    (RId.swaggerRoute, [RId.restApi, RId.alb]),
    (RId.authRoute, [RId.restApi, RId.alb]),
    (RId.frontendBucket, []),
    (RId.frontendOAI, []),
    (RId.frontendDistribution, [RId.frontendBucket, RId.frontendOAI]),
    (RId.gitHubRole, [RId.frontendBucket, RId.frontendDistribution]),
    (RId.ssmParam "/code-refactor/backend/api-gateway-url", [RId.restApi]),
    (RId.ssmParam "/code-refactor/backend/cognito-user-pool-id", [RId.userPool]),
    (RId.ssmParam "/code-refactor/backend/cognito-region", []),
    (RId.ssmParam "/code-refactor/backend/s3-bucket-name", [RId.storageBucket]),
    (RId.ssmParam "/code-refactor/backend/rds-cluster-arn", [RId.rdsCluster]),
    (RId.ssmParam "/code-refactor/backend/aws-region", []),
    (RId.ssmParam "/code-refactor/backend/aws-account-id", []),
    (RId.ssmParam "/code-refactor/backend/ecr-repository-uri", [RId.ecrRepo]),
    (RId.ssmParam "/code-refactor/backend/ecs-cluster-name", [RId.ecsCluster]),
    (RId.ssmParam "/code-refactor/backend/rds-postgres-schema-ensure-lambda-arn",
      [RId.migrationLambda]),
    (RId.ssmParam "/code-refactor/frontend/api-base-url", [RId.restApi]),
    (RId.ssmParam "/code-refactor/frontend/cognito-user-pool-id", [RId.userPool]),
    (RId.ssmParam "/code-refactor/frontend/cognito-hosted-ui-url", [RId.userPoolDomain]),
    (RId.ssmParam "/code-refactor/frontend/aws-region", []),
    (RId.ssmParam "/code-refactor/frontend/cloudfront-domain", [RId.frontendDistribution]),
    (RId.ssmParam "/code-refactor/deployment/frontend-bucket", [RId.frontendBucket]),
    (RId.ssmParam "/code-refactor/deployment/cloudfront-distribution-id",
      [RId.frontendDistribution]),
    (RId.ssmParam "/code-refactor/deployment/ecr-repository-uri", [RId.ecrRepo]),
    (RId.ssmParam "/code-refactor/deployment/aws-region", []),
    (RId.backendSecretsRes,
      [RId.dbSecret, RId.knowledgeBaseRole, RId.agentRole, RId.userPoolClient]),
    (RId.frontendSecretsRes, [RId.userPoolClient]) ]

def declIds : List RId := declTable.map Prod.fst

/-! ## Deterministic construction

The only nondeterminism in `NewAppStack` is the iteration order of the
merged `allParams` Go map inside `createNonSecretParameters`; everything
else is a fixed sequence of declarations whose construct ids and physical
names are pure functions of the account id and region (the database
construct id is the package constant `RDSPostgresDatabaseName`, passed in
as a parameter here).  A run is modelled as the declaration list it
produces: construct id paired with the declared physical name where the
source sets one. -/

def allParamKeys : List String := paramStoreEntries.map Prod.fst

/-- The construct id the parameter write loop computes:
`"Param" ++ ReplaceAll(ReplaceAll(TrimPre(name, "/code-refactor/"), "/", ""), "-", "")`. -/
def paramConstructID (key : String) : String :=
  let trimmed :=
    if key.toList.take 15 = "/code-refactor/".toList then key.toList.drop 15
    else key.toList
  "Param" ++ String.mk (trimmed.filter (fun c => !(c == '/') && !(c == '-')))

def priorDeclNames (dbName account region : String) : List (String × Option String) :=
  [ ("RefactorVpc", none),
    ("CodeRefactorBucket", some (bucketNameOf account region)),
    ("CodeRefactorDbSecret", some "code-refactor-db-secret"),
    (dbName, some "code-refactor-cluster"),
    ("DbMigrationLambdaSG", none),
    ("DbMigrationLambdaRole", none),
    ("DbMigrationLambda", none),
    ("CodeRefactorUserPool", some "code-refactor-user-pool"),
    ("CodeRefactorUserPoolClient", some "code-refactor-client"),
    ("CodeRefactorUserPoolDomain", some (hostedDomainPartOf account)),
    ("BedrockKnowledgeBaseRole", none),
    ("BedrockAgentRole", none),
    ("RefactorCluster", none),
    ("FargateLogGroup", some "/ecs/code-refactor"),
    ("RefactorTaskRole", none),
    ("RefactorTaskDef", none),
    ("RefactorEcrRepo", some "refactor-ecr-repo"),
    ("RefactorContainer", none),
    ("CodeRefactorALB", none),
    ("CodeRefactorTargetGroup", none),
    ("EcsServiceSG", none),
    ("CodeRefactorService", none),
    ("CodeRefactorListener", none),
    ("CodeRefactorAPI", some "code-refactor-api"),
    ("CodeRefactorAuthorizer", some "code-refactor-authorizer"),
    ("\x7bproxy+\x7d", none),
    ("health", none),
    ("swagger", none),
    ("auth", none),
    ("FrontendBucket", some (frontendBucketNameOf account region)),
    ("FrontendOAI", none),
    ("FrontendDistribution", none),
    ("GitHubActionsRole", some "CodeRefactor-GitHubActions-Role") ]

def postDeclNames : List (String × Option String) :=
  [ ("BackendSecrets", some "/code-refactor/backend/secrets"),
    ("FrontendSecrets", some "/code-refactor/frontend/secrets") ]

/-- The declaration list of one run of `NewAppStack`, given the iteration
order `paramOrder` the Go runtime picks for the merged parameter map. -/
def stackDeclNames (dbName account region : String) (paramOrder : List String) :
    List (String × Option String) :=
  priorDeclNames dbName account region ++
    (paramOrder.map (fun k => (paramConstructID k, some k)) ++ postDeclNames)

/-! ## Claim theorems -/

/-- Claim C1: in the routing table produced by `createAPIGatewayResources`,
the routes declared without the authentication guard are exactly
GET /health, GET /swagger and GET /auth, and every other declared route
carries the Cognito authorizer. -/
theorem unauthenticated_routes_exact :
    (apiRoutes.filter (fun r => r.auth == RouteAuth.open_)).map (fun r => (r.verb, r.path)) =
      [("GET", "/health"), ("GET", "/swagger"), ("GET", "/auth")] ∧
    (apiRoutes.filter (fun r => r.auth != RouteAuth.open_)).all
      (fun r => r.auth == RouteAuth.cognito) = true := by
  decide

/-- Claim C2 counterexample: the claim `every record in the secret store is
secret-classified and every record in the parameter store is not` is false,
because the Cognito client ID (an identifier, hence non-secret under the
spec's classification) is written into the secret store. -/
theorem secret_classification_counterexample :
    ¬ (secretStoreEntries.all (fun e => secretClassifiedPerSpec e.2) = true ∧
       paramStoreEntries.all (fun e => !(secretClassifiedPerSpec e.2)) = true) := by
  decide

/-- Claim C2 (amended): every secret-classified record (trust-role ARNs,
database-credential ARN) is written only under the secret store and never
under the plain parameter store, and every parameter-store record is
non-secret; the secret store holds, besides secret-classified records, only
the Cognito client ID. -/
theorem secret_classification_amended :
    paramStoreEntries.all (fun e => !(secretClassifiedPerSpec e.2)) = true ∧
    secretStoreEntries.all
      (fun e => secretClassifiedPerSpec e.2 || e.2 == CfgVal.clientID) = true ∧
    ("cognito_client_id", CfgVal.clientID) ∈ secretStoreEntries := by
  decide

/-- Claim C3 counterexample: the migration role does not carry only the
`rds-data`-on-cluster and secret-read grants; the AWS-managed Lambda basic
execution policy is also attached, so the claim `no broader grant` fails. -/
theorem migration_role_grants_counterexample :
    ¬ (migrationRoleGrants.all
        (fun g =>
          g == RoleGrant.inlineGrant rdsDataActions IamRes.cluster ||
          g == RoleGrant.inlineGrant secretReadActions IamRes.credentialsSecret) = true) := by
  decide

/-- Claim C3 (amended): the migration role's resource-scoped permissions are
exactly the `rds-data` actions on the cluster ARN plus read access to the
credentials secret, nothing is granted on any other resource, and the only
further attachments are the two AWS-managed Lambda execution policies
(CloudWatch logging and VPC access). -/
theorem migration_role_grants_amended :
    actionsGrantedOn migrationRoleGrants IamRes.cluster = rdsDataActions ∧
    actionsGrantedOn migrationRoleGrants IamRes.credentialsSecret = secretReadActions ∧
    actionsGrantedOn migrationRoleGrants IamRes.star = [] ∧
    managedPoliciesOf migrationRoleGrants =
      [ "service-role/AWSLambdaBasicExecutionRole",
        "service-role/AWSLambdaVPCAccessExecutionRole" ] := by
  decide

/-- Claim C4 counterexample: the injected environment-variable names do not
equal the spec's fixed set; `GIT_TOKEN` is injected but absent from the
spec's list. -/
theorem container_env_names_counterexample :
    ¬ (containerEnvNames.all (fun n => specifiedEnvNames.contains n) = true) ∧
    containerEnvNames.contains "GIT_TOKEN" = true ∧
    specifiedEnvNames.contains "GIT_TOKEN" = false := by
  decide

/-- Claim C4 (amended): the injected environment-variable names are exactly
the spec's fixed set plus the six extra names (`GIT_TOKEN`, `GIT_AUTHOR`,
`GIT_EMAIL`, `AI_DEFAULT_PROVIDER`, `AI_LOCAL_ENABLED`, `METRICS_ENABLED`);
in particular none of the spec's names is missing. -/
theorem container_env_names_amended :
    containerEnvNames.all
      (fun n => specifiedEnvNames.contains n || extraEnvNames.contains n) = true ∧
    specifiedEnvNames.all (fun n => containerEnvNames.contains n) = true ∧
    extraEnvNames.all (fun n => containerEnvNames.contains n) = true := by
  decide

/-- Claim C5: two runs of the stack construction with the same account id
and region declare the same number of resources with identical names: any
two iteration orders of the parameter map (both permutations of the merged
key set) yield declaration lists that are permutations of each other, hence
of equal length and with the same names. -/
theorem construction_deterministic (dbName account region : String)
    (o₁ o₂ : List String)
    (h₁ : o₁.Perm allParamKeys) (h₂ : o₂.Perm allParamKeys) :
    (stackDeclNames dbName account region o₁).length =
      (stackDeclNames dbName account region o₂).length ∧
    (stackDeclNames dbName account region o₁).Perm
      (stackDeclNames dbName account region o₂) := by
  have hmap : (o₁.map (fun k => (paramConstructID k, some k))).Perm
      (o₂.map (fun k => (paramConstructID k, some k))) :=
    (h₁.trans h₂.symm).map _
  have hp : (stackDeclNames dbName account region o₁).Perm
      (stackDeclNames dbName account region o₂) :=
    (hmap.append_right postDeclNames).append_left (priorDeclNames dbName account region)
  exact ⟨hp.length_eq, hp⟩

/-- Witness for `construction_deterministic`: the literal map order against
its reversal, on the spec's example account and region. -/
theorem construction_deterministic_witness :
    (stackDeclNames "db" "123456789012" "us-east-1" allParamKeys).length =
      (stackDeclNames "db" "123456789012" "us-east-1" allParamKeys.reverse).length ∧
    (stackDeclNames "db" "123456789012" "us-east-1" allParamKeys).Perm
      (stackDeclNames "db" "123456789012" "us-east-1" allParamKeys.reverse) :=
  construction_deterministic "db" "123456789012" "us-east-1"
    allParamKeys allParamKeys.reverse (List.Perm.refl _) (List.reverse_perm _)

/-- Claim C6: on account `123456789012` in region `us-east-1` the storage
bucket name and the hosted-domain part are the literal strings required by
the spec scenario. -/
theorem example_scenario_names :
    bucketNameOf "123456789012" "us-east-1" = "code-refactor-bucket-123456789012-us-east-1" ∧
    hostedDomainPartOf "123456789012" = "code-refactor-123456789012" := by
  constructor <;> rfl

/-- Claim C7: the declared ids are pairwise distinct, every cross-reference
of every declaration points to a handle declared strictly earlier in the
construction order (no forward or cyclic references), and in particular the
database credential secret is declared before the cluster that references
it. -/
theorem references_declared_earlier :
    declIds.Nodup ∧
    (∀ p ∈ declTable, ∀ r ∈ p.2, declIds.indexOf r < declIds.indexOf p.1) ∧
    declIds.indexOf RId.dbSecret < declIds.indexOf RId.rdsCluster := by
  decide

/-- Witness for `references_declared_earlier`, at the cluster declaration and
its reference to the credential secret. -/
theorem references_declared_earlier_witness :
    declIds.indexOf RId.dbSecret < declIds.indexOf RId.rdsCluster :=
  references_declared_earlier.2.1 (RId.rdsCluster, [RId.vpc, RId.dbSecret])
    (by decide) RId.dbSecret (by decide)

/-- Claim C8: the identity declarer fixes self-service signup on, email
auto-verification on, a 24-hour ID-token validity, a 24-hour access-token
validity and a 30-day refresh-token validity, all as constants. -/
theorem cognito_policy_constants :
    userPoolCfg.selfSignUpEnabled = true ∧
    userPoolCfg.autoVerifyEmail = true ∧
    userPoolClientCfg.idTokenValidityMin = 24 * 60 ∧
    userPoolClientCfg.accessTokenValidityMin = 24 * 60 ∧
    userPoolClientCfg.refreshTokenValidityMin = 30 * 24 * 60 := by
  decide

/-- Claim C9: the frontend parameter `cognito-hosted-ui-url` holds only the
bare user-pool domain, while the stack field `CognitoHostedUIURL` holds the
full `https://<domain>.auth.<region>.amazoncognito.com` URL, so the parameter
value is a strict substring of (an inner factor of, and never equal to) the
stack-output URL, for every domain and region. -/
theorem hosted_ui_param_strict_substring (domainURL region : String) :
    (∃ s t, appStackHostedUIURL domainURL region =
      s ++ frontendHostedUIParamValue domainURL ++ t) ∧
    appStackHostedUIURL domainURL region ≠ frontendHostedUIParamValue domainURL := by
  constructor
  · refine ⟨"https://", ".auth." ++ region ++ ".amazoncognito.com", ?_⟩
    simp [appStackHostedUIURL, frontendHostedUIParamValue, String.append_assoc]
  · intro h
    have hlen := congrArg String.length h
    simp only [appStackHostedUIURL, frontendHostedUIParamValue, String.length_append] at hlen
    have h1 : ("https://" : String).length = 8 := rfl
    have h2 : (".auth." : String).length = 6 := rfl
    have h3 : (".amazoncognito.com" : String).length = 18 := rfl
    rw [h1, h2, h3] at hlen
    omega

/-- Claim C10 counterexample: read access to the frontend bucket is not
granted only to the origin-access identity; the GitHub Actions deploy role
is also granted `s3:GetObject` on the frontend bucket. -/
theorem frontend_read_only_oai_counterexample :
    ¬ (readGrantees BucketId.frontend).all (fun p => p == S3Principal.frontendOAI) = true := by
  decide

/-- Claim C10 (amended): both buckets are declared with all public access
blocked, and object-read access to the frontend bucket is granted only to
the CloudFront origin-access identity and the GitHub Actions deploy role —
so the frontend bucket is never directly publicly readable. -/
theorem frontend_buckets_access_amended :
    codeRefactorBucketCfg.publicAccess = PublicAccessCfg.blockAll ∧
    frontendBucketCfg.publicAccess = PublicAccessCfg.blockAll ∧
    readGrantees BucketId.frontend =
      [S3Principal.frontendOAI, S3Principal.gitHubActionsRole] := by
  decide

end CodeRefactorInfra
